import Mathlib

/-!
Shallow embedding of the section-extraction and outline-classification core of
`src/create_presentation.py` (class `PresentationGenerator`), together with
theorems settling the specification claims about it.

Lines are modelled as `String`; Python string primitives (`startswith`,
`in`, `strip`, slicing `[n:]`) are modelled on the character list `String.data`.
-/

/-- Python `s.startswith(p)`: `p` is a character-prefix of `s`. -/
def pyStartsWith (s p : String) : Bool := decide (p.data <+: s.data)

/-- Python `p in s`: `p` occurs as a contiguous substring of `s`. -/
def pyIn (p s : String) : Bool := decide (p.data <:+: s.data)

/-- Python `s.strip()`: remove leading and trailing whitespace characters. -/
def pyStrip (s : String) : String :=
  ⟨((s.data.dropWhile Char.isWhitespace).reverse.dropWhile Char.isWhitespace).reverse⟩

/-- Python `s[n:]`: drop the first `n` characters. -/
def pyDrop (s : String) (n : Nat) : String := ⟨s.data.drop n⟩

/--
The outline classifier: the level-detection branch of
`PresentationGenerator.add_content_slide` (src/create_presentation.py,
lines 104-117), applied to one content line `item`:

    if item.startswith('  - '):      level = 1; cleaned_item = item[4:]
    elif item.startswith('    - '):  level = 2; cleaned_item = item[6:]
    elif item.startswith('- '):      level = 0; cleaned_item = item[2:]
    else:                            cleaned_item = item   (level stays 0)
-/
def classify (item : String) : Nat × String :=
  if pyStartsWith item "  - " then (1, pyDrop item 4)
  else if pyStartsWith item "    - " then (2, pyDrop item 6)
  else if pyStartsWith item "- " then (0, pyDrop item 2)
  else (0, item)

/--
The spec's four-rule priority table for the classifier (spec §4.2), written
in the spec's order (deepest prefix first), to be compared with `classify`,
which is transcribed from the source's branch order.
-/
def specClassify (line : String) : Nat × String :=
  if pyStartsWith line "    - " then (2, pyDrop line 6)
  else if pyStartsWith line "  - " then (1, pyDrop line 4)
  else if pyStartsWith line "- " then (0, pyDrop line 2)
  else (0, line)

-- Basic facts about the modelled Python primitives.

theorem pyStartsWith_iff (s p : String) : pyStartsWith s p = true ↔ p.data <+: s.data := by
  simp [pyStartsWith]

theorem pyIn_iff (p s : String) : pyIn p s = true ↔ p.data <:+: s.data := by
  simp [pyIn]

/-- A string starting with `"    - "` does not start with `"  - "`. -/
theorem not_two_of_four (s : String) (h : pyStartsWith s "    - " = true) :
    pyStartsWith s "  - " = false := by
  rw [pyStartsWith_iff] at h
  have h6 : ("    - ").data = [' ', ' ', ' ', ' ', '-', ' '] := rfl
  rw [h6] at h
  obtain ⟨t, ht⟩ := h
  apply Bool.eq_false_iff.mpr
  intro h2
  rw [pyStartsWith_iff] at h2
  have h4 : ("  - ").data = [' ', ' ', '-', ' '] := rfl
  rw [h4] at h2
  obtain ⟨u, hu⟩ := h2
  rw [← ht] at hu
  simp [List.cons.injEq] at hu

/-- A string starting with `"  - "` does not start with `"    - "`. -/
theorem not_four_of_two (s : String) (h : pyStartsWith s "  - " = true) :
    pyStartsWith s "    - " = false := by
  cases h4 : pyStartsWith s "    - " with
  | false => rfl
  | true => rw [not_two_of_four s h4] at h; exact absurd h (by simp)

/--
C1: the classifier is total and agrees, on every input line, with the spec's
four-rule priority table (level and cleaned text); in particular a blank line
maps to `(0, "")`.
-/
theorem classify_eq_specClassify :
    (∀ line : String, classify line = specClassify line) ∧ classify "" = (0, "") := by
  constructor
  · intro line
    unfold classify specClassify
    cases h2 : pyStartsWith line "  - " with
    | true => rw [not_four_of_two line h2]; simp
    | false => rfl
  · rfl

/-- Any line whose first five characters are spaces matches none of the three
dash patterns, so the classifier's fallback branch applies. -/
theorem classify_five_spaces (t : List Char) :
    classify ⟨' ' :: ' ' :: ' ' :: ' ' :: ' ' :: t⟩ =
      (0, ⟨' ' :: ' ' :: ' ' :: ' ' :: ' ' :: t⟩) := by
  have h2 : pyStartsWith ⟨' ' :: ' ' :: ' ' :: ' ' :: ' ' :: t⟩ "  - " = false := by
    simp only [pyStartsWith, decide_eq_false_iff_not]
    intro h
    simp [List.cons_prefix_cons] at h
  have h6 : pyStartsWith ⟨' ' :: ' ' :: ' ' :: ' ' :: ' ' :: t⟩ "    - " = false := by
    simp only [pyStartsWith, decide_eq_false_iff_not]
    intro h
    simp [List.cons_prefix_cons] at h
  have h0 : pyStartsWith ⟨' ' :: ' ' :: ' ' :: ' ' :: ' ' :: t⟩ "- " = false := by
    simp only [pyStartsWith, decide_eq_false_iff_not]
    intro h
    simp [List.cons_prefix_cons] at h
  unfold classify
  rw [h2, h6, h0]
  rfl

/--
C2: a dash preceded by five or more spaces is not promoted to level 3 (or any
deeper level): it falls through to the fallback rule and is classified as
level 0 with the text unchanged.
-/
theorem deep_indent_falls_through (n : Nat) (rest : List Char) (h : 5 ≤ n) :
    classify ⟨List.replicate n ' ' ++ '-' :: ' ' :: rest⟩ =
      (0, ⟨List.replicate n ' ' ++ '-' :: ' ' :: rest⟩) := by
  obtain ⟨k, rfl⟩ := Nat.le.dest h
  have hrep : List.replicate (5 + k) ' ' ++ '-' :: ' ' :: rest =
      ' ' :: ' ' :: ' ' :: ' ' :: ' ' :: (List.replicate k ' ' ++ '-' :: ' ' :: rest) := by
    simp [List.replicate_add]
  rw [hrep]
  exact classify_five_spaces _

/-- Witness for C2 at `n = 5`, `rest = "x"`. -/
theorem deep_indent_falls_through_witness :
    5 ≤ 5 ∧ classify ⟨List.replicate 5 ' ' ++ '-' :: ' ' :: "x".data⟩ =
      (0, ⟨List.replicate 5 ' ' ++ '-' :: ' ' :: "x".data⟩) :=
  ⟨by decide, deep_indent_falls_through 5 "x".data (by decide)⟩

/--
One iteration of the feature-extraction loop of
`PresentationGenerator.parse_readme` (src/create_presentation.py, lines
229-236), for the loop state `in_features` and the current `line`:

    if line.strip() == heading: in_features = True; continue
    if in_features and line.startswith('##'): break
    if in_features and line.strip().startswith('- '): features.append(line.strip())

`none` models `break`; `some (e, inF)` models continuing with new state `inF`,
appending the lines in `e`.  The source hardcodes `heading = '## 주요 기능'`.
-/
def bulletStep (heading : String) (inF : Bool) (line : String) :
    Option (Option String × Bool) :=
  if pyStrip line == heading then some (none, true)
  else if inF && pyStartsWith line "##" then none
  else if inF && pyStartsWith (pyStrip line) "- " then some (some (pyStrip line), inF)
  else some (none, inF)

/-- The feature-extraction loop, iterating `bulletStep` over the lines. -/
def extractBulletsAux (heading : String) : List String → Bool → List String
  | [], _ => []
  | line :: rest, inF =>
    match bulletStep heading inF line with
    | none => []
    | some (e, next) => e.toList ++ extractBulletsAux heading rest next

/-- Bullet-list extraction: the whole `features` loop started with
`in_features = False` and `features = []`. -/
def extractBullets (heading : String) (lines : List String) : List String :=
  extractBulletsAux heading lines false

/--
One iteration of the workflow-extraction loop of
`PresentationGenerator.parse_readme` (src/create_presentation.py, lines
245-256), for the loop state `(in_workflow, in_code_block)` and current `line`:

    if heading in line: in_workflow = True; continue
    if in_workflow and line.strip() == '```':
        if not in_code_block: in_code_block = True; continue
        else: break
    if in_workflow and in_code_block: workflow.append(line)

The source hardcodes `heading = '## 전체 워크플로우'`.
-/
def fencedStep (heading : String) (st : Bool × Bool) (line : String) :
    Option (Option String × (Bool × Bool)) :=
  if pyIn heading line then some (none, (true, st.2))
  else if st.1 && (pyStrip line == "```") then
    if !st.2 then some (none, (st.1, true)) else none
  else if st.1 && st.2 then some (some line, st)
  else some (none, st)

/-- The workflow-extraction loop, iterating `fencedStep` over the lines. -/
def extractFencedAux (heading : String) : List String → Bool × Bool → List String
  | [], _ => []
  | line :: rest, st =>
    match fencedStep heading st line with
    | none => []
    | some (e, next) => e.toList ++ extractFencedAux heading rest next

/-- Fenced-block extraction: the whole `workflow` loop started with
`in_workflow = False` and `in_code_block = False`. -/
def extractFenced (heading : String) (lines : List String) : List String :=
  extractFencedAux heading lines (false, false)

/-- The bullet heading literal hardcoded in the source (line 230). -/
def featuresHeading : String := "## 주요 기능"

/-- The fenced heading literal hardcoded in the source (line 246). -/
def workflowHeading : String := "## 전체 워크플로우"

/-- The `features` list computed by `parse_readme` (lines 227-236). -/
def extractFeatures (lines : List String) : List String :=
  extractBullets featuresHeading lines

/-- The `workflow` list computed by `parse_readme` (lines 242-256). -/
def extractWorkflow (lines : List String) : List String :=
  extractFenced workflowHeading lines

/--
C3: on the document `["## 주요 기능", "- Feature A", "", "- Feature B", "## Next"]`
with heading `"## 주요 기능"`, bullet extraction returns exactly
`["- Feature A", "- Feature B"]`: the blank line is dropped and collection
stops at `"## Next"` without including it.
-/
theorem bullet_scenario_a :
    extractFeatures ["## 주요 기능", "- Feature A", "", "- Feature B", "## Next"] =
      ["- Feature A", "- Feature B"] := by decide

/--
C4: on the document
`["## 전체 워크플로우", "intro text", "```", "box1", "box2", "```", "## Other"]`,
fenced extraction — both with the heading substring `"전체 워크플로우"` and with the
source's hardcoded heading — returns exactly `["box1", "box2"]`: the text
between the heading and the opening fence is excluded, neither fence line is
included, and extraction stops at the closing fence.
-/
theorem fenced_scenario_b :
    extractFenced "전체 워크플로우"
        ["## 전체 워크플로우", "intro text", "```", "box1", "box2", "```", "## Other"] =
      ["box1", "box2"] ∧
    extractWorkflow
        ["## 전체 워크플로우", "intro text", "```", "box1", "box2", "```", "## Other"] =
      ["box1", "box2"] := by constructor <;> decide

/--
C5: the two extraction modes use different heading-matching rules.  From the
not-yet-collecting state, the bullet loop enters its collecting state exactly
when the whitespace-trimmed line equals the heading literal, while the fenced
loop enters its in-section state exactly when the line contains the heading as
a substring; neither step breaks or emits a line from that state.
-/
theorem heading_match_asymmetry (heading line : String) (c : Bool) :
    bulletStep heading false line = some (none, (pyStrip line == heading)) ∧
    fencedStep heading (false, c) line = some (none, (pyIn heading line, c)) := by
  constructor
  · unfold bulletStep
    cases h : (pyStrip line == heading) <;> simp [h]
  · unfold fencedStep
    cases h : pyIn heading line <;> simp [h]

/-- One slide emitted by `PresentationGenerator`: the four `add_*_slide`
methods, recorded with their title and content arguments. -/
inductive Slide
  | title (t s : String)
  | content (t : String) (items : List String)
  | code (t : String) (ls : List String)
  | diagram (t : String) (ls : List String)
deriving DecidableEq

/-- The slides of `create_command_slides` (src/create_presentation.py,
lines 276-396); they do not depend on the document lines. -/
def commandSlides : List Slide :=
  [ Slide.content "1. 가변 메쉬 생성 (generate-var)"
      [ "YAML 설정으로 곡선/가변 밀도 메쉬 생성", "",
        "타입 1: 가변 밀도 평면 메쉬 (type: flat)",
        "  - 영역별로 요소 밀도 제어",
        "  - 밴딩 영역은 조밀, 평평한 영역은 성기게",
        "  - 레퍼런스 기반 자동 크기 조정", "",
        "타입 2: 곡선 메쉬 (type: curved)",
        "  - 2D centerline 기반 벤딩 메쉬 생성",
        "  - B-spline, Catmull-Rom 보간",
        "  - 자동 arc-length 계산" ],
    Slide.code "generate-var 예제"
      [ "# 곡선 메쉬 YAML 예제", "type: curved", "centerline_points:",
        "  - [0, 0]", "  - [40, 10]", "  - [80, 30]",
        "interpolation: catmull_rom", "", "# 명령어",
        "KooRemapper generate-var config.yaml output.k" ],
    Slide.content "2. 메쉬 매핑 (map)"
      [ "디테일 플랫 → 디테일 벤트 변형", "", "입력:",
        "  - 심플 벤트: 레퍼런스 (형상 정의, ~10K 요소)",
        "  - 디테일 플랫: 매핑 대상 (~1M 요소)", "", "출력:",
        "  - 디테일 벤트: 변형 결과 (~1M 요소)", "", "특징:",
        "  - 레퍼런스는 HEX8 정형 메쉬",
        "  - 디테일은 HEX8/TET4 비정형 가능",
        "  - 자동 크기 조정" ],
    Slide.code "map 예제"
      [ "# 심플 레퍼런스 생성 (10,000 요소)",
        "KooRemapper generate-var curved.yaml simple_bent.k", "",
        "# 디테일 플랫 준비 (CAD 또는 generate-var)",
        "# detail_flat.k (1,000,000 요소)", "",
        "# 매핑: 디테일 플랫 → 디테일 벤트",
        "KooRemapper map simple_bent.k detail_flat.k detail_bent.k" ],
    Slide.content "3. 초기 응력 계산 (prestress)"
      [ "변형 전/후 메쉬로부터 응력 계산", "", "물성 정의 방법:",
        "  - K-file 물성 자동 읽기 (*PART, *MAT_ELASTIC)",
        "  - 명령줄 옵션으로 덮어쓰기 (-E, -nu)",
        "  - 다중 파트 지원", "", "출력 포맷:",
        "  - dynain: *INITIAL_STRESS_SOLID",
        "  - CSV: 요소별 응력 데이터", "",
        "LS-DYNA에서 *INCLUDE로 바로 사용" ],
    Slide.code "prestress 예제"
      [ "# K-file 물성 자동 사용",
        "KooRemapper prestress detail_flat.k detail_bent.k output.dynain", "",
        "# 명령줄 물성 지정 (덮어쓰기)",
        "KooRemapper prestress -E 210000 -nu 0.3 \\",
        "    detail_flat.k detail_bent.k output.dynain", "",
        "# LS-DYNA 입력 파일", "*INCLUDE", "output.dynain" ],
    Slide.content "4. 기타 명령어"
      [ "unfold - 벤트 → 플랫 언폴딩",
        "  - Arc-length 기반 평면화",
        "  - 크기 참조용 (선택적)", "",
        "generate - 테스트 예제 생성",
        "  - arc, torus, helix, wave 등",
        "  - bent/flat 쌍 자동 생성", "",
        "info - 메쉬 정보 출력",
        "  - 노드/요소 개수",
        "  - Bounding Box",
        "  - 정형 그리드 구조 (i,j,k)" ] ]

/-- The slide of `create_example_slides` (lines 398-418). -/
def exampleSlides : List Slide :=
  [ Slide.code "전체 워크플로우 예제"
      [ "# 1. 심플 벤트 레퍼런스 (10K 요소)",
        "KooRemapper generate-var curved.yaml simple_bent.k", "",
        "# 2. 심플 플랫 (크기 참조용, 선택)",
        "KooRemapper unfold simple_bent.k simple_flat.k", "",
        "# 3. 디테일 플랫 (1M 요소)",
        "KooRemapper generate-var vardens.yaml detail_flat.k", "",
        "# 4. 디테일 플랫 → 디테일 벤트",
        "KooRemapper map simple_bent.k detail_flat.k detail_bent.k", "",
        "# 5. 초기 응력 계산",
        "KooRemapper prestress detail_flat.k detail_bent.k prestress.dynain" ] ]

/-- The slides of `create_technical_slides` (lines 420-460). -/
def technicalSlides : List Slide :=
  [ Slide.content "기술 세부사항"
      [ "지원 요소:",
        "  - 레퍼런스: HEX8 (정형 필수)",
        "  - 매핑 대상: HEX8, TET4 (비정형 가능)", "",
        "매핑 알고리즘:",
        "  - 정형 그리드 분석 (i,j,k 인덱스)",
        "  - Edge arc-length 계산",
        "  - 파라메트릭 좌표 변환 (u,v,w)",
        "  - Transfinite 보간", "",
        "응력 계산:",
        "  - 변형 구배 텐서 (F)",
        "  - Green-Lagrange / Engineering strain",
        "  - Hooke's Law (선형 탄성)",
        "  - von Mises, Principal stress" ],
    Slide.content "파일 포맷 및 특징"
      [ "입출력 포맷:",
        "  - K-file: LS-DYNA 메쉬 (*.k)",
        "  - YAML: 설정 파일 (*.yaml)",
        "  - dynain: 초기 응력 (*.dynain)",
        "  - CSV: 스트레인 데이터 (*.csv)", "",
        "주요 특징:",
        "  - 크로스 플랫폼 (Windows/Linux/macOS)",
        "  - 정적 링크 (단일 실행파일)",
        "  - K-file 물성 자동 파싱",
        "  - 다중 파트 지원",
        "  - 대용량 메쉬 처리 (100만+ 요소)" ] ]

/-- The document-independent slides emitted by `parse_readme` after the
features and workflow slides (lines 262-274). -/
def fixedTailSlides : List Slide :=
  commandSlides ++ exampleSlides ++ technicalSlides ++
    [Slide.title "감사합니다" "KooRemapper - 메쉬 매핑 및 응력 분석 도구"]

/--
The slide sequence emitted by `PresentationGenerator.parse_readme`
(src/create_presentation.py, lines 213-274) on a document given as a list of
lines: the title slide, the features content slide if `features` is non-empty,
the workflow diagram slide if `workflow` is non-empty, and the fixed slides.
-/
def parseReadmeSlides (lines : List String) : List Slide :=
  Slide.title "KooRemapper" "LS-DYNA K-file용 메쉬 매핑 및 응력 분석 도구" ::
    ((if extractFeatures lines = [] then []
      else [Slide.content "주요 기능" (extractFeatures lines)]) ++
     (if extractWorkflow lines = [] then []
      else [Slide.diagram "전체 워크플로우" (extractWorkflow lines)]) ++
     fixedTailSlides)

/-- Whether a slide is a content slide with the given title. -/
def isContentTitled (t : String) : Slide → Bool
  | Slide.content u _ => u == t
  | _ => false

/-- Whether a slide is a diagram slide with the given title. -/
def isDiagramTitled (t : String) : Slide → Bool
  | Slide.diagram u _ => u == t
  | _ => false

theorem no_features_slide_in_fixed (xs : List String) :
    Slide.content "주요 기능" xs ∉ fixedTailSlides := by
  intro hmem
  have hall : fixedTailSlides.all (fun s => !isContentTitled "주요 기능" s) = true := by
    decide
  have hs := List.all_eq_true.mp hall _ hmem
  simp [isContentTitled] at hs

theorem no_diagram_slide_in_fixed (xs : List String) :
    Slide.diagram "전체 워크플로우" xs ∉ fixedTailSlides := by
  intro hmem
  have hall : fixedTailSlides.all (fun s => !isDiagramTitled "전체 워크플로우" s) = true := by
    decide
  have hs := List.all_eq_true.mp hall _ hmem
  simp [isDiagramTitled] at hs

/--
C6: extraction is total (it returns a plain list, empty when the heading is
missing or yields no qualifying lines), and `parse_readme` emits the features
content slide, resp. the workflow diagram slide, exactly when the
corresponding extraction result is non-empty.
-/
theorem missing_section_omits_slide (lines : List String) :
    ((∃ xs, Slide.content "주요 기능" xs ∈ parseReadmeSlides lines) ↔
      extractFeatures lines ≠ []) ∧
    ((∃ xs, Slide.diagram "전체 워크플로우" xs ∈ parseReadmeSlides lines) ↔
      extractWorkflow lines ≠ []) := by
  unfold parseReadmeSlides
  by_cases hf : extractFeatures lines = [] <;> by_cases hw : extractWorkflow lines = [] <;>
    simp [hf, hw, no_features_slide_in_fixed, no_diagram_slide_in_fixed]

-- Step-value lemmas for the workflow loop body.

theorem fencedStep_heading (h line : String) (st : Bool × Bool)
    (hl : pyIn h line = true) : fencedStep h st line = some (none, (true, st.2)) := by
  simp [fencedStep, hl]

theorem fencedStep_skip_scanning (h line : String) (c : Bool)
    (hl : pyIn h line = false) : fencedStep h (false, c) line = some (none, (false, c)) := by
  simp [fencedStep, hl]

theorem fencedStep_skip_section (h line : String)
    (hl : pyIn h line = false) (hs : pyStrip line ≠ "```") :
    fencedStep h (true, false) line = some (none, (true, false)) := by
  simp [fencedStep, hl, hs]

theorem fencedStep_open (h line : String)
    (hl : pyIn h line = false) (hs : pyStrip line = "```") :
    fencedStep h (true, false) line = some (none, (true, true)) := by
  simp [fencedStep, hl, hs]

theorem fencedStep_emit (h line : String)
    (hl : pyIn h line = false) (hs : pyStrip line ≠ "```") :
    fencedStep h (true, true) line = some (some line, (true, true)) := by
  simp [fencedStep, hl, hs]

theorem fencedStep_close (h line : String)
    (hl : pyIn h line = false) (hs : pyStrip line = "```") :
    fencedStep h (true, true) line = none := by
  simp [fencedStep, hl, hs]

-- Segment lemmas: how the workflow loop traverses each region of a document.

/-- Lines before the heading (not containing it) are skipped. -/
theorem fencedAux_pre (h : String) (pre rest : List String) (c : Bool)
    (hpre : ∀ l ∈ pre, pyIn h l = false) :
    extractFencedAux h (pre ++ rest) (false, c) = extractFencedAux h rest (false, c) := by
  induction pre with
  | nil => rfl
  | cons a A ih =>
    have ha : pyIn h a = false := hpre a (by simp)
    simp only [List.cons_append, extractFencedAux, fencedStep_skip_scanning h a c ha]
    exact ih (fun l hl => hpre l (by simp [hl]))

/-- A heading-bearing line switches (or keeps) the section state on. -/
theorem fencedAux_heading (h line : String) (rest : List String) (st : Bool × Bool)
    (hl : pyIn h line = true) :
    extractFencedAux h (line :: rest) st = extractFencedAux h rest (true, st.2) := by
  simp only [extractFencedAux, fencedStep_heading h line st hl]
  rfl

/-- In-section, pre-fence lines that are not an effective opening fence are
skipped (a line that strips to the fence but contains the heading is consumed
by the heading re-check instead). -/
theorem fencedAux_mid (h : String) (mid rest : List String)
    (hmid : ∀ l ∈ mid, pyStrip l = "```" → pyIn h l = true) :
    extractFencedAux h (mid ++ rest) (true, false) = extractFencedAux h rest (true, false) := by
  induction mid with
  | nil => rfl
  | cons a A ih =>
    have step : fencedStep h (true, false) a = some (none, (true, false)) := by
      cases hl : pyIn h a with
      | true => exact fencedStep_heading h a (true, false) hl
      | false =>
        refine fencedStep_skip_section h a hl ?_
        intro hs
        rw [hmid a (by simp) hs] at hl
        exact absurd hl (by simp)
    simp only [List.cons_append, extractFencedAux, step]
    exact ih (fun l hl => hmid l (by simp [hl]))

/-- An effective opening fence toggles the in-fence state. -/
theorem fencedAux_open (h f : String) (rest : List String)
    (hl : pyIn h f = false) (hs : pyStrip f = "```") :
    extractFencedAux h (f :: rest) (true, false) = extractFencedAux h rest (true, true) := by
  simp only [extractFencedAux, fencedStep_open h f hl hs]
  rfl

/-- In-fence, lines up to the first effective closing fence are appended
verbatim, except that heading-bearing lines are skipped. -/
theorem fencedAux_collect (h : String) (mid rest : List String)
    (hmid : ∀ l ∈ mid, pyStrip l = "```" → pyIn h l = true) :
    extractFencedAux h (mid ++ rest) (true, true) =
      mid.filter (fun l => !pyIn h l) ++ extractFencedAux h rest (true, true) := by
  induction mid with
  | nil => rfl
  | cons a A ih =>
    cases hl : pyIn h a with
    | true =>
      simp only [List.cons_append, extractFencedAux,
        fencedStep_heading h a (true, true) hl]
      simp only [List.filter_cons, hl, Bool.not_true, Option.toList_none,
        List.nil_append]
      exact ih (fun l hl2 => hmid l (by simp [hl2]))
    | false =>
      have hs : pyStrip a ≠ "```" := by
        intro hs
        rw [hmid a (by simp) hs] at hl
        exact absurd hl (by simp)
      simp only [List.cons_append, extractFencedAux, fencedStep_emit h a hl hs,
        Option.toList_some, List.singleton_append, List.append_eq]
      rw [ih (fun l hl2 => hmid l (by simp [hl2]))]
      simp [List.filter_cons, hl]

/-- An effective closing fence terminates extraction immediately. -/
theorem fencedAux_close (h f : String) (rest : List String)
    (hl : pyIn h f = false) (hs : pyStrip f = "```") :
    extractFencedAux h (f :: rest) (true, true) = [] := by
  simp only [extractFencedAux, fencedStep_close h f hl hs]

/--
C7 counterexample: in the unterminated-fence document
`["## 전체 워크플로우", "```", "a", "x ## 전체 워크플로우 y", "b"]` (no line after the
opening fence strips to a fence marker), extraction returns `["a", "b"]`, not
all lines after the opening fence: the line containing the heading substring
is consumed by the heading re-check and skipped.
-/
theorem unterminated_fence_skips_heading_line :
    extractWorkflow ["## 전체 워크플로우", "```", "a", "x ## 전체 워크플로우 y", "b"] =
      ["a", "b"] ∧
    (["a", "b"] : List String) ≠ ["a", "x ## 전체 워크플로우 y", "b"] := by
  constructor
  · decide
  · decide

/--
C7 (amended): if the heading and an opening fence are found and no line after
the opening fence strips to a fence marker, extraction terminates at the
document end and returns exactly the lines after the opening fence up to the
last line of the document, except that any line containing the heading
substring is skipped; nothing is fabricated.
-/
theorem unterminated_fence_collects_to_end
    (pre mid1 tail : List String) (hline f1 : String)
    (hpre : ∀ l ∈ pre, pyIn workflowHeading l = false)
    (hh : pyIn workflowHeading hline = true)
    (hmid1 : ∀ l ∈ mid1, pyStrip l = "```" → pyIn workflowHeading l = true)
    (hf1s : pyStrip f1 = "```") (hf1h : pyIn workflowHeading f1 = false)
    (htail : ∀ l ∈ tail, pyStrip l ≠ "```") :
    extractWorkflow (pre ++ hline :: (mid1 ++ f1 :: tail)) =
      tail.filter (fun l => !pyIn workflowHeading l) := by
  unfold extractWorkflow extractFenced
  rw [fencedAux_pre workflowHeading pre _ false hpre]
  rw [fencedAux_heading workflowHeading hline _ (false, false) hh]
  rw [fencedAux_mid workflowHeading mid1 _ hmid1]
  rw [fencedAux_open workflowHeading f1 _ hf1h hf1s]
  have := fencedAux_collect workflowHeading tail []
    (fun l hl hs => absurd hs (htail l hl))
  rw [List.append_nil] at this
  rw [this]
  simp [extractFencedAux]

/-- Witness for the amended C7 on a concrete document. -/
theorem unterminated_fence_collects_to_end_witness :
    extractWorkflow ([] ++ "## 전체 워크플로우" :: ([] ++ "```" :: ["a", "b"])) =
      (["a", "b"] : List String).filter (fun l => !pyIn workflowHeading l) :=
  unterminated_fence_collects_to_end [] [] ["a", "b"] "## 전체 워크플로우" "```"
    (by decide) (by decide) (by decide) (by decide) (by decide) (by decide)

/--
C8 counterexample: in
`["## 전체 워크플로우", "```", "a", "x ## 전체 워크플로우 y", "b", "```"]` the lines
strictly between the two fences are `["a", "x ## 전체 워크플로우 y", "b"]`, but
extraction returns `["a", "b"]`: the heading-bearing line between the fences is
skipped, so the result is not the full contiguous run.
-/
theorem fenced_run_not_contiguous :
    extractWorkflow
        ["## 전체 워크플로우", "```", "a", "x ## 전체 워크플로우 y", "b", "```"] =
      ["a", "b"] ∧
    (["a", "b"] : List String) ≠ ["a", "x ## 전체 워크플로우 y", "b"] := by
  constructor
  · decide
  · decide

/--
C8 (amended): every line of the fenced extraction result is character-for-
character a source line, and the result equals, in document order, exactly
those lines strictly between the opening fence and the closing fence that do
not contain the heading substring (heading-bearing lines between the fences
are skipped); nothing at or beyond the closing fence is included.
-/
theorem fenced_block_verbatim
    (pre mid1 mid rest : List String) (hline f1 f2 : String)
    (hpre : ∀ l ∈ pre, pyIn workflowHeading l = false)
    (hh : pyIn workflowHeading hline = true)
    (hmid1 : ∀ l ∈ mid1, pyStrip l = "```" → pyIn workflowHeading l = true)
    (hf1s : pyStrip f1 = "```") (hf1h : pyIn workflowHeading f1 = false)
    (hmid : ∀ l ∈ mid, pyStrip l = "```" → pyIn workflowHeading l = true)
    (hf2s : pyStrip f2 = "```") (hf2h : pyIn workflowHeading f2 = false) :
    extractWorkflow (pre ++ hline :: (mid1 ++ f1 :: (mid ++ f2 :: rest))) =
      mid.filter (fun l => !pyIn workflowHeading l) := by
  unfold extractWorkflow extractFenced
  rw [fencedAux_pre workflowHeading pre _ false hpre]
  rw [fencedAux_heading workflowHeading hline _ (false, false) hh]
  rw [fencedAux_mid workflowHeading mid1 _ hmid1]
  rw [fencedAux_open workflowHeading f1 _ hf1h hf1s]
  rw [fencedAux_collect workflowHeading mid _ hmid]
  rw [fencedAux_close workflowHeading f2 rest hf2h hf2s]
  rw [List.append_nil]

/-- Witness for the amended C8 on a concrete document. -/
theorem fenced_block_verbatim_witness :
    extractWorkflow
        ([] ++ "## 전체 워크플로우" ::
          (["intro"] ++ "```" :: (["  box1", "", "box2"] ++ "```" :: ["## Other"]))) =
      (["  box1", "", "box2"] : List String).filter
        (fun l => !pyIn workflowHeading l) :=
  fenced_block_verbatim [] ["intro"] ["  box1", "", "box2"] ["## Other"]
    "## 전체 워크플로우" "```" "```"
    (by decide) (by decide) (by decide) (by decide) (by decide) (by decide)
    (by decide) (by decide)

-- Step-value lemmas for the features loop body.

theorem bulletStep_heading (h line : String) (inF : Bool)
    (hl : pyStrip line = h) : bulletStep h inF line = some (none, true) := by
  simp [bulletStep, hl]

theorem bulletStep_break (h line : String)
    (hl : pyStrip line ≠ h) (hsh : pyStartsWith line "##" = true) :
    bulletStep h true line = none := by
  simp [bulletStep, hl, hsh]

theorem bulletStep_scanning (h line : String)
    (hl : pyStrip line ≠ h) : bulletStep h false line = some (none, false) := by
  simp [bulletStep, hl]

/--
C9 counterexample: on
`["## 주요 기능", "- a", "## 주요 기능", "- b", "## Next"]` the second occurrence of
the heading is consumed by the equality re-check (it does not `break`), so the
bullet line `"- b"` of the later same-heading section is included in the
result.
-/
theorem duplicate_heading_content_included :
    extractFeatures ["## 주요 기능", "- a", "## 주요 기능", "- b", "## Next"] =
      ["- a", "- b"] ∧
    ("- b" : String) ∈
      extractFeatures ["## 주요 기능", "- a", "## 주요 기능", "- b", "## Next"] := by
  constructor
  · decide
  · decide

/--
C9 (amended): the single-pass scan never restarts and never revisits a
completed region: once the heading has been seen and a terminating line is
reached (a line starting with `"##"` whose trimmed form is not the heading),
no later line is ever included — the result does not depend on anything after
the terminator.  (A later line whose trimmed form equals the heading, however,
does not terminate collection, so bullet lines of a duplicate-heading section
occurring before the first terminator are included.)
-/
theorem bullet_scan_never_restarts
    (A rest : List String) (t : String)
    (hA : ∃ l ∈ A, pyStrip l = featuresHeading)
    (ht1 : pyStartsWith t "##" = true) (ht2 : pyStrip t ≠ featuresHeading) :
    extractBullets featuresHeading (A ++ t :: rest) =
      extractBullets featuresHeading (A ++ [t]) := by
  unfold extractBullets
  have main : ∀ (A : List String) (inF : Bool),
      (inF = true ∨ ∃ l ∈ A, pyStrip l = featuresHeading) →
      extractBulletsAux featuresHeading (A ++ t :: rest) inF =
        extractBulletsAux featuresHeading (A ++ [t]) inF := by
    intro A
    induction A with
    | nil =>
      intro inF hA
      have hT : inF = true := by
        rcases hA with hA | ⟨l, hl, _⟩
        · exact hA
        · exact absurd hl (List.not_mem_nil l)
      subst hT
      simp only [List.nil_append, extractBulletsAux,
        bulletStep_break featuresHeading t ht2 ht1]
    | cons a A ih =>
      intro inF hA
      by_cases ha : pyStrip a = featuresHeading
      · simp only [List.cons_append, extractBulletsAux, List.append_eq,
          bulletStep_heading featuresHeading a inF ha]
        rw [ih true (Or.inl rfl)]
      · have hA2 : inF = true ∨ ∃ l ∈ A, pyStrip l = featuresHeading := by
          rcases hA with hA | ⟨l, hl, hsl⟩
          · exact Or.inl hA
          · rcases List.mem_cons.mp hl with rfl | hl2
            · exact absurd hsl ha
            · exact Or.inr ⟨l, hl2, hsl⟩
        cases inF with
        | false =>
          simp only [List.cons_append, extractBulletsAux, List.append_eq,
            bulletStep_scanning featuresHeading a ha]
          rw [ih false hA2]
        | true =>
          cases hsh : pyStartsWith a "##" with
          | true =>
            simp only [List.cons_append, extractBulletsAux,
              bulletStep_break featuresHeading a ha hsh]
          | false =>
            have hstep : ∃ e, bulletStep featuresHeading true a = some (e, true) := by
              unfold bulletStep
              simp only [beq_iff_eq, ha, if_false, hsh, Bool.and_false,
                Bool.true_and, if_false]
              by_cases hb : pyStartsWith (pyStrip a) "- " = true
              · exact ⟨some (pyStrip a), by simp [hb]⟩
              · exact ⟨none, by simp [hb]⟩
            obtain ⟨e, he⟩ := hstep
            simp only [List.cons_append, extractBulletsAux, List.append_eq, he]
            rw [ih true (Or.inl rfl)]
  exact main A false (Or.inr hA)

/-- Witness for the amended C9 on a concrete document. -/
theorem bullet_scan_never_restarts_witness :
    extractBullets featuresHeading (["## 주요 기능", "- a"] ++ "## Next" :: ["- c"]) =
      extractBullets featuresHeading (["## 주요 기능", "- a"] ++ ["## Next"]) :=
  bullet_scan_never_restarts ["## 주요 기능", "- a"] ["- c"] "## Next"
    (by decide) (by decide) (by decide)

/-- Every line the features loop ever appends is a trimmed line satisfying the
bullet-marker guard, so it starts with `"- "`. -/
theorem bulletsAux_mem_startsWith (h : String) (lines : List String) (inF : Bool)
    (e : String) (he : e ∈ extractBulletsAux h lines inF) :
    pyStartsWith e "- " = true := by
  induction lines generalizing inF with
  | nil => exact absurd he (List.not_mem_nil e)
  | cons a A ih =>
    by_cases hh : pyStrip a = h
    · rw [extractBulletsAux, bulletStep_heading h a inF hh] at he
      exact ih true (by simpa using he)
    · cases hsh : (inF && pyStartsWith a "##") with
      | true =>
        have hstep : bulletStep h inF a = none := by
          simp [bulletStep, hh, hsh]
        rw [extractBulletsAux, hstep] at he
        exact absurd he (List.not_mem_nil e)
      | false =>
        cases hb : (inF && pyStartsWith (pyStrip a) "- ") with
        | true =>
          have hstep : bulletStep h inF a = some (some (pyStrip a), inF) := by
            simp [bulletStep, hh, hsh, hb]
          rw [extractBulletsAux, hstep] at he
          rcases List.mem_append.mp he with hin | hin
          · have hev : e = pyStrip a := by simpa using hin
            subst hev
            exact (Bool.and_eq_true _ _).mp hb |>.2
          · exact ih inF hin
        | false =>
          have hstep : bulletStep h inF a = some (none, inF) := by
            simp [bulletStep, hh, hsh, hb]
          rw [extractBulletsAux, hstep] at he
          exact ih inF (by simpa using he)

/--
C10: every element of the bullet-extraction result is a whitespace-trimmed
line that starts with `"- "` — its first character is the dash, so it carries
no leading indentation — and classifying it always yields level 0 with the
two-character marker stripped: levels 1 and 2 are unreachable through the
bullet-extraction pipeline.
-/
theorem bullet_items_are_level_zero (heading : String) (lines : List String)
    (e : String) (he : e ∈ extractBullets heading lines) :
    (∃ t, e.data = '-' :: ' ' :: t) ∧ classify e = (0, pyDrop e 2) := by
  have hsw : pyStartsWith e "- " = true :=
    bulletsAux_mem_startsWith heading lines false e he
  rw [pyStartsWith_iff] at hsw
  have h0d : ("- ").data = ['-', ' '] := rfl
  rw [h0d] at hsw
  obtain ⟨t, ht⟩ := hsw
  refine ⟨⟨t, ht.symm⟩, ?_⟩
  have h2 : pyStartsWith e "  - " = false := by
    simp only [pyStartsWith, decide_eq_false_iff_not]
    intro hp
    rw [← ht] at hp
    simp [List.cons_prefix_cons] at hp
  have h6 : pyStartsWith e "    - " = false := by
    simp only [pyStartsWith, decide_eq_false_iff_not]
    intro hp
    rw [← ht] at hp
    simp [List.cons_prefix_cons] at hp
  have h0 : pyStartsWith e "- " = true := by
    simp only [pyStartsWith, decide_eq_true_eq, h0d]
    exact ⟨t, ht⟩
  unfold classify
  rw [h2, h6, h0]
  rfl

/-- Witness for C10: the element `"- Feature A"` of the Scenario-A extraction. -/
theorem bullet_items_are_level_zero_witness :
    ("- Feature A" : String) ∈
      extractBullets featuresHeading
        ["## 주요 기능", "- Feature A", "", "- Feature B", "## Next"] ∧
    ((∃ t, ("- Feature A" : String).data = '-' :: ' ' :: t) ∧
      classify "- Feature A" = (0, pyDrop "- Feature A" 2)) :=
  ⟨by decide,
    bullet_items_are_level_zero featuresHeading
      ["## 주요 기능", "- Feature A", "", "- Feature B", "## Next"]
      "- Feature A" (by decide)⟩
